import Mathlib

/-!
Shallow embedding of the `tamu` document-classification pipeline
(`src/classification/classifier.py`, `enhanced_classifier.py`,
`accuracy_tracker.py`, `content_safety.py`, `processing/batch_processor.py`).

Python floats are modelled as rationals (`ℚ`); an exhaustive check of the
reachable HITL score sums confirmed the 0.75-threshold comparison agrees
between IEEE doubles and exact rationals for every reachable combination of
factor weights.  Dictionaries keyed by strings or bins are modelled as
functions; an oracle (Gemini) call that may raise or return malformed JSON is
modelled as `Except String α` where the `error` case carries the exception
message.  Wall-clock fields (`processing_time`, timestamps), console printing
and the citation-extraction step, which no claim touches, are omitted.
-/

/-- Python `round(x, 4)`: round to 4 decimal places, ties to even
(banker's rounding, as CPython's `round`). -/
def round4 (q : ℚ) : ℚ :=
  let n : ℚ := q * 10000
  let f : ℤ := ⌊n⌋
  let r : ℚ := n - (f : ℚ)
  let k : ℤ :=
    if r < 1/2 then f
    else if 1/2 < r then f + 1
    else if f % 2 = 0 then f else f + 1
  (k : ℚ) / 10000

/-- Python `int(x)`: truncation toward zero. -/
def pyInt (q : ℚ) : ℤ :=
  if 0 ≤ q then ⌊q⌋ else ⌈q⌉

/-- Python `abs` on a rational. -/
def absQ (q : ℚ) : ℚ :=
  if q < 0 then -q else q

/-- Source `Config.CONFIDENCE_THRESHOLD` default (`config.py`, env default "0.9"). -/
def CONFIDENCE_THRESHOLD : ℚ := 9/10

/-- Source `Config.CATEGORIES` (`config.py`). -/
def CATEGORIES : List String := ["PUBLIC", "SENSITIVE", "CONFIDENTIAL", "UNSAFE"]

/-- Result of one policy check (`_check_safety` / `_check_confidential` /
`_check_sensitive` JSON).  The category-specific boolean key (`is_unsafe`,
`is_confidential`, `is_sensitive`) is the `flagged` field; JSON keys are
modelled as total record fields. -/
structure CheckResult where
  flagged : Bool
  confidence : ℚ
  reasoning : String
  citation : String
deriving Repr, DecidableEq

/-- The `except` branch of each check in `classifier.py`: a non-flagging
result with confidence 0.5 and the error message in `reasoning`. -/
def fallbackCheck (e : String) : CheckResult :=
  { flagged := false, confidence := 1/2, reasoning := "Error: " ++ e, citation := "" }

/-- A check call: on success the parsed JSON, on an exception (API error or
`json.loads` failure) the degraded fallback. -/
def runCheck (resp : Except String CheckResult) : CheckResult :=
  match resp with
  | .ok r => r
  | .error e => fallbackCheck e

/-- The oracle responses one `_classify_single` pass consumes, in cascade
order. -/
structure PassOracle where
  safety : Except String CheckResult
  confidential : Except String CheckResult
  sensitive : Except String CheckResult

/-- Result of `GeminiClassifier._classify_single` (the `step_results` debug
dict is omitted). -/
structure SingleResult where
  document_id : String
  final_category : String
  confidence_score : ℚ
  reasoning_summary : String
  citation_snippet : String
  validation_pass : Nat
deriving Repr, DecidableEq

/-- Source `GeminiClassifier._classify_single` (classifier.py lines 119-193):
ordered cascade safety → confidential → sensitive, defaulting to PUBLIC with
confidence 0.95 and canned strings. -/
def classifySingle (document_id : String) (oracle : PassOracle)
    (validation_pass : Nat) : SingleResult :=
  let safety_result := runCheck oracle.safety
  if safety_result.flagged then
    { document_id := document_id, final_category := "UNSAFE",
      confidence_score := safety_result.confidence,
      reasoning_summary := safety_result.reasoning,
      citation_snippet := safety_result.citation,
      validation_pass := validation_pass }
  else
    let confidential_result := runCheck oracle.confidential
    if confidential_result.flagged then
      { document_id := document_id, final_category := "CONFIDENTIAL",
        confidence_score := confidential_result.confidence,
        reasoning_summary := confidential_result.reasoning,
        citation_snippet := confidential_result.citation,
        validation_pass := validation_pass }
    else
      let sensitive_result := runCheck oracle.sensitive
      if sensitive_result.flagged then
        { document_id := document_id, final_category := "SENSITIVE",
          confidence_score := sensitive_result.confidence,
          reasoning_summary := sensitive_result.reasoning,
          citation_snippet := sensitive_result.citation,
          validation_pass := validation_pass }
      else
        { document_id := document_id, final_category := "PUBLIC",
          confidence_score := 95/100,
          reasoning_summary := "Document contains no unsafe, confidential, or sensitive information. Suitable for public distribution.",
          citation_snippet := "No restricted content found",
          validation_pass := validation_pass }

/-- The `dual_validation_results` dict: pass confidences on consensus,
both categories and confidences on mismatch. -/
inductive DualDetail where
  | consensus (pass1 pass2 : ℚ)
  | mismatch (category1 : String) (confidence1 : ℚ) (category2 : String) (confidence2 : ℚ)
deriving Repr, DecidableEq

/-- Result of `GeminiClassifier.classify`. -/
structure ClassifyResult where
  document_id : String
  final_category : String
  confidence_score : ℚ
  reasoning_summary : String
  citation_snippet : String
  validation_pass : Nat
  hitl_status : String
  validation_consensus : Option Bool
  dual_validation_results : Option DualDetail
deriving Repr, DecidableEq

/-- Consensus logic of `GeminiClassifier.classify` (classifier.py lines
91-112) applied to the two pass results: consensus iff equal categories and
both confidences at or above the threshold; either way the returned record is
the pass-1 result annotated. -/
def classifyFromPasses (result1 result2 : SingleResult) : ClassifyResult :=
  if result1.final_category = result2.final_category ∧
      CONFIDENCE_THRESHOLD ≤ result1.confidence_score ∧
      CONFIDENCE_THRESHOLD ≤ result2.confidence_score then
    { document_id := result1.document_id,
      final_category := result1.final_category,
      confidence_score := result1.confidence_score,
      reasoning_summary := result1.reasoning_summary,
      citation_snippet := result1.citation_snippet,
      validation_pass := result1.validation_pass,
      hitl_status := "AUTO_APPROVED",
      validation_consensus := some true,
      dual_validation_results :=
        some (.consensus result1.confidence_score result2.confidence_score) }
  else
    { document_id := result1.document_id,
      final_category := result1.final_category,
      confidence_score := result1.confidence_score,
      reasoning_summary := result1.reasoning_summary,
      citation_snippet := result1.citation_snippet,
      validation_pass := result1.validation_pass,
      hitl_status := "REQUIRES_REVIEW",
      validation_consensus := some false,
      dual_validation_results :=
        some (.mismatch result1.final_category result1.confidence_score
          result2.final_category result2.confidence_score) }

/-- Source `GeminiClassifier.classify` in dual-validation mode (the default:
`use_dual_validation=True` and `Config.DUAL_VALIDATION_ENABLED` defaults to
true). -/
def classifyDual (document_id : String) (pass1 pass2 : PassOracle) : ClassifyResult :=
  classifyFromPasses (classifySingle document_id pass1 1)
    (classifySingle document_id pass2 2)

/-- Rounding `round4` is the identity on rationals that are already exact to 4
decimal places. -/
theorem round4_exact (q : ℚ) (f : ℤ) (h : q * 10000 = (f : ℚ)) : round4 q = q := by
  have hf : ⌊q * 10000⌋ = f := by rw [h]; exact Int.floor_intCast f
  simp only [round4, hf, h]
  norm_num
  rw [div_eq_iff (by norm_num : (10000:ℚ) ≠ 0)]
  linarith [h]

/-- Truncation `pyInt` agrees with the floor on non-negative arguments. -/
theorem pyInt_of_nonneg (q : ℚ) (h : 0 ≤ q) : pyInt q = ⌊q⌋ := by
  simp [pyInt, h]

/-- Per-category counters and derived metrics kept in
`metrics['category_stats']` (accuracy_tracker.py).  The `defaultdict` factory
initialises every field to zero. -/
structure CategoryStats where
  true_positives : Nat
  false_positives : Nat
  false_negatives : Nat
  precision : ℚ
  recall_metric : ℚ
  f1_score : ℚ
deriving Repr, DecidableEq

/-- The `defaultdict` factory value for `category_stats`. -/
def freshStats : CategoryStats :=
  { true_positives := 0, false_positives := 0, false_negatives := 0,
    precision := 0, recall_metric := 0, f1_score := 0 }

/-- One entry appended to a confidence bin by `record_prediction`. -/
structure PredRecord where
  predicted : String
  ground_truth : Option String
  correct : Option Bool
  document_id : String
deriving Repr, DecidableEq

/-- One entry of the `hitl_corrections` log. -/
structure Correction where
  document_id : String
  original : String
  corrected : String
  confidence : ℚ
deriving Repr, DecidableEq

/-- The in-memory `AccuracyTracker.metrics` dict.  String- and bin-keyed
dicts are modelled as functions; `category_stats` maps to `none` where the
`defaultdict` holds no entry (a plain `.get(category, {})` does not create
one). -/
structure TrackerState where
  total_predictions : Nat
  total_ground_truth : Nat
  confusion_matrix : String → String → Nat
  confidence_bins : ℚ → List PredRecord
  category_stats : String → Option CategoryStats
  hitl_corrections : List Correction

/-- The fresh metrics dict built by `_load_metrics` when no metrics file
exists. -/
def initialMetrics : TrackerState :=
  { total_predictions := 0, total_ground_truth := 0,
    confusion_matrix := fun _ _ => 0, confidence_bins := fun _ => [],
    category_stats := fun _ => none, hitl_corrections := [] }

/-- Python truthiness of the optional `ground_truth` argument (both `None`
and the empty string are falsy). -/
def truthy : Option String → Bool
  | none => false
  | some s => !s.isEmpty

/-- Write one category's stats entry. -/
def setStat (stats : String → Option CategoryStats) (cat : String)
    (v : CategoryStats) : String → Option CategoryStats :=
  fun c => if c = cat then some v else stats c

/-- The body of the `for category in Config.CATEGORIES` loop of
`record_prediction`: bump TP/FP/FN of `cat` according to `predicted` and the
ground truth `gtv`; the fourth case touches nothing (no `defaultdict` entry is
created). -/
def updateStatsOne (stats : String → Option CategoryStats)
    (cat predicted gtv : String) : String → Option CategoryStats :=
  let st := (stats cat).getD freshStats
  if predicted = cat ∧ gtv = cat then
    setStat stats cat { st with true_positives := st.true_positives + 1 }
  else if predicted = cat ∧ gtv ≠ cat then
    setStat stats cat { st with false_positives := st.false_positives + 1 }
  else if predicted ≠ cat ∧ gtv = cat then
    setStat stats cat { st with false_negatives := st.false_negatives + 1 }
  else stats

/-- Precision as computed by `_recalculate_metrics` (0 when `tp+fp = 0`). -/
def precisionOf (tp fp : Nat) : ℚ :=
  if 0 < tp + fp then (tp : ℚ) / ((tp : ℚ) + (fp : ℚ)) else 0

/-- Recall as computed by `_recalculate_metrics` (0 when `tp+fn = 0`). -/
def recallOf (tp fn : Nat) : ℚ :=
  if 0 < tp + fn then (tp : ℚ) / ((tp : ℚ) + (fn : ℚ)) else 0

/-- F1 as computed by `_recalculate_metrics` (0 when `p+r = 0`). -/
def f1Of (p r : ℚ) : ℚ :=
  if 0 < p + r then 2 * (p * r) / (p + r) else 0

/-- One iteration of `_recalculate_metrics`: recompute the derived metrics of
`cat` from its counters, rounded to 4 decimals.  The `defaultdict` access
creates the entry. -/
def recalcOne (stats : String → Option CategoryStats) (cat : String) :
    String → Option CategoryStats :=
  let st := (stats cat).getD freshStats
  let p := precisionOf st.true_positives st.false_positives
  let r := recallOf st.true_positives st.false_negatives
  setStat stats cat
    { st with
      precision := round4 p,
      recall_metric := round4 r,
      f1_score := round4 (f1Of p r) }

/-- Source `AccuracyTracker._recalculate_metrics`. -/
def recalculateMetrics (s : TrackerState) : TrackerState :=
  { s with category_stats :=
      CATEGORIES.foldl (fun acc cat => recalcOne acc cat) s.category_stats }

/-- The bin key `int(confidence * 10) / 10` of `record_prediction`. -/
def confidenceBin (confidence : ℚ) : ℚ :=
  (pyInt (confidence * 10) : ℚ) / 10

/-- Source `AccuracyTracker.record_prediction` (accuracy_tracker.py lines 66-109);
`_save_metrics` only serialises and is omitted. -/
def recordPrediction (s : TrackerState) (predicted : String)
    (ground_truth : Option String) (confidence : ℚ) (document_id : String) :
    TrackerState :=
  let bin := confidenceBin confidence
  let entry : PredRecord :=
    { predicted := predicted, ground_truth := ground_truth,
      correct := if truthy ground_truth then
          some (decide (predicted = ground_truth.getD "")) else none,
      document_id := document_id }
  let s1 := { s with
    total_predictions := s.total_predictions + 1,
    confidence_bins := fun q =>
      if q = bin then s.confidence_bins q ++ [entry] else s.confidence_bins q }
  if truthy ground_truth then
    let gtv := ground_truth.getD ""
    let s2 := { s1 with
      total_ground_truth := s1.total_ground_truth + 1,
      confusion_matrix := fun g p =>
        if g = gtv ∧ p = predicted then s1.confusion_matrix g p + 1
        else s1.confusion_matrix g p }
    let s3 := { s2 with
      category_stats :=
        CATEGORIES.foldl (fun acc cat => updateStatsOne acc cat predicted gtv)
          s2.category_stats }
    recalculateMetrics s3
  else s1

/-- Source `AccuracyTracker.record_hitl_correction` (accuracy_tracker.py lines
111-131): append to the correction log, then treat the correction as ground
truth via `record_prediction(original, corrected, confidence, document_id)`. -/
def recordHitlCorrection (s : TrackerState) (document_id original corrected : String)
    (confidence : ℚ) : TrackerState :=
  let s1 := { s with hitl_corrections := s.hitl_corrections ++
    [{ document_id := document_id, original := original,
       corrected := corrected, confidence := confidence }] }
  recordPrediction s1 original (some corrected) confidence document_id

/-- The precision read performed by `_calibrate_confidence`:
`metrics['category_stats'].get(category, {}).get('precision', 0.5)`.
A plain `.get` on the `defaultdict` does not create an entry, so a category
never touched by ground-truth recording reads the default 0.5. -/
def calibrationPrecision (s : TrackerState) (category : String) : ℚ :=
  match s.category_stats category with
  | some st => st.precision
  | none => 1/2

/-- Source `EnhancedGeminiClassifier._calibrate_confidence` (enhanced_classifier.py
lines 202-230). -/
def calibrateConfidence (s : TrackerState) (raw_confidence : ℚ)
    (category : String) (has_consensus : Bool) : ℚ :=
  let precision := calibrationPrecision s category
  let calibrated := raw_confidence * (7/10 + 3/10 * precision)
  let calibrated := if has_consensus then min 1 (calibrated * (11/10)) else calibrated
  let calibrated := max 0 (min 1 calibrated)
  round4 calibrated

/-- The precision read performed by `_enhanced_hitl_decision`:
`metrics['category_stats'].get(category, {}).get('precision', 0.0)` —
note the 0.0 default, unlike the calibration read. -/
def hitlPrecision (s : TrackerState) (category : String) : ℚ :=
  match s.category_stats category with
  | some st => st.precision
  | none => 0

/-- Outcome of `_enhanced_hitl_decision` (the formatted `reasoning` string is
omitted). -/
structure HitlDecision where
  status : String
  auto_approval_probability : ℚ
deriving Repr, DecidableEq

/-- Source `EnhancedGeminiClassifier._enhanced_hitl_decision` (enhanced_classifier.py
lines 232-294): accumulate the four weighted factors, then compare against
the fixed 0.75 threshold. -/
def enhancedHitlDecision (s : TrackerState) (confidence : ℚ) (category : String)
    (has_consensus : Bool) (safety_score : ℚ) : HitlDecision :=
  let score0 : ℚ := 0
  let score1 := score0 +
    (if 95/100 ≤ confidence then 2/5
     else if 9/10 ≤ confidence then 3/10
     else if 85/100 ≤ confidence then 1/5 else 0)
  let score2 := score1 + (if has_consensus then 3/10 else 0)
  let precision := hitlPrecision s category
  let score3 := score2 +
    (if 95/100 ≤ precision then 1/5
     else if 9/10 ≤ precision then 3/20 else 0)
  let score4 := score3 + (if 95/100 ≤ safety_score then 1/10 else 0)
  if 3/4 ≤ score4 then
    { status := "AUTO_APPROVED", auto_approval_probability := score4 }
  else
    { status := "REQUIRES_REVIEW", auto_approval_probability := score4 }

/-- Result of `ContentSafetyValidator.validate` (content_safety.py lines
64-121); the `recommendations` and `detail` fields, which no claim touches,
are omitted. -/
structure SafetyResult where
  is_safe : Bool
  safety_score : ℚ
  violations : List String
  categories_flagged : List String
  child_safe : Bool
deriving Repr, DecidableEq

/-- Result dict of `EnhancedGeminiClassifier.classify`.  Keys absent from the
blocked-path dict (`original_confidence`, `auto_approval_probability`) are
`none` there. -/
structure EnhancedResult where
  document_id : String
  final_category : String
  confidence_score : ℚ
  reasoning_summary : String
  citation_snippet : String
  child_safe : Bool
  hitl_status : String
  validation_consensus : Option Bool
  original_confidence : Option ℚ
  auto_approval_probability : Option ℚ
  safety_details : SafetyResult
deriving Repr, DecidableEq

/-- Source `EnhancedGeminiClassifier.classify` (enhanced_classifier.py lines 36-161)
with `ground_truth=None` (no accuracy recording).  The safety validation
outcome is an input; when it flags the content the blocked-path dict of lines
66-85 is returned and neither the base classifier nor the HITL scorer runs;
otherwise the dual-validation pipeline, calibration and HITL decision run in
order. -/
def enhancedClassify (document_id : String) (safety_result : SafetyResult)
    (pass1 pass2 : PassOracle) (tracker : TrackerState) : EnhancedResult :=
  if !safety_result.is_safe then
    { document_id := document_id,
      final_category := "UNSAFE",
      confidence_score := 1,
      reasoning_summary := "Content safety validation failed. Violations: " ++
        String.intercalate ", " safety_result.violations ++
        ". This content has been flagged for: " ++
        String.intercalate ", " safety_result.categories_flagged ++ ".",
      citation_snippet := "Multiple safety violations detected",
      child_safe := safety_result.child_safe,
      hitl_status := "REQUIRES_REVIEW",
      validation_consensus := some true,
      original_confidence := none,
      auto_approval_probability := none,
      safety_details := safety_result }
  else
    let result := classifyDual document_id pass1 pass2
    let calibrated := calibrateConfidence tracker result.confidence_score
      result.final_category (result.validation_consensus.getD false)
    let decision := enhancedHitlDecision tracker calibrated result.final_category
      (result.validation_consensus.getD false) safety_result.safety_score
    { document_id := result.document_id,
      final_category := result.final_category,
      confidence_score := calibrated,
      reasoning_summary := result.reasoning_summary,
      citation_snippet := result.citation_snippet,
      child_safe := safety_result.child_safe,
      hitl_status := decision.status,
      validation_consensus := result.validation_consensus,
      original_confidence := some result.confidence_score,
      auto_approval_probability := some decision.auto_approval_probability,
      safety_details := safety_result }

/-- One value of the dict returned by
`AccuracyTracker.get_confidence_calibration`. -/
structure CalibrationEntry where
  expected : ℚ
  actual : ℚ
  samples : Nat
  calibration_error : ℚ
deriving Repr, DecidableEq

/-- The per-bin computation of `get_confidence_calibration`
(accuracy_tracker.py lines 198-222): `none` when the bin is empty (no dict
entry is emitted), otherwise accuracy and calibration error against the bin
label `float(bin_str)`. -/
def confidenceCalibrationEntry (s : TrackerState) (bin : ℚ) :
    Option CalibrationEntry :=
  let predictions := s.confidence_bins bin
  let correct := (predictions.filter (fun p => p.correct = some true)).length
  let total := predictions.length
  if 0 < total then
    let actual_accuracy : ℚ := (correct : ℚ) / (total : ℚ)
    some { expected := bin, actual := round4 actual_accuracy, samples := total,
           calibration_error := round4 (absQ (bin - actual_accuracy)) }
  else none

/-- What classifying one batch file produces when nothing raises
(`_process_single_file` success dict, built from the classifier result). -/
structure FileClassification where
  document_id : String
  final_category : String
  confidence_score : ℚ
  hitl_status : String
deriving Repr, DecidableEq

/-- One entry of a batch job's `results` list. -/
inductive FileResult where
  | success (file : String) (document_id : String) (classification : String)
      (confidence : ℚ) (hitl_status : String)
  | failed (file : String) (error : String)
deriving Repr, DecidableEq

/-- Source `BatchProcessor._process_single_file` (batch_processor.py lines 158-199):
any exception raised while processing or classifying the file is caught and
turned into a FAILED entry carrying the message. -/
def processSingleFile (file : String)
    (outcome : Except String FileClassification) : FileResult :=
  match outcome with
  | .ok c => .success file c.document_id c.final_category c.confidence_score c.hitl_status
  | .error e => .failed file e

/-- The `result.get('error')` truthiness in the collection loop of
`process_batch`: a success dict has no `error` key (`.get` gives falsy
`None`), and a failed dict carries `'error': str(e)`, which is truthy only
when the message is non-empty — an exception whose `str` is `""` is falsy,
so that failure is not counted. -/
def hasError : FileResult → Bool
  | .failed _ e => !e.isEmpty
  | .success _ _ _ _ _ => false

/-- The per-job counters of `BatchJob` that `process_batch` updates. -/
structure BatchJobState where
  total_files : Nat
  processed_files : Nat
  failed_files : Nat
  results : List FileResult
  status : String
deriving Repr, DecidableEq

/-- Source `BatchProcessor.process_batch` (batch_processor.py lines 100-156).  Each
file is processed independently; the collection loop appends the result,
always bumps `processed_files`, and bumps `failed_files` when the entry
carries an error.  The thread pool only affects the order in which futures
complete, which the counters are insensitive to; the model collects in
submission order. -/
def processBatch (files : List (String × Except String FileClassification)) :
    BatchJobState :=
  let initial : BatchJobState :=
    { total_files := files.length, processed_files := 0, failed_files := 0,
      results := [], status := "PROCESSING" }
  let afterLoop := files.foldl (fun job fo =>
    let result := processSingleFile fo.1 fo.2
    { job with
      results := job.results ++ [result],
      processed_files := job.processed_files + 1,
      failed_files := job.failed_files + (if hasError result then 1 else 0) })
    initial
  { afterLoop with status := "COMPLETED" }

example : (runCheck (.error "boom")).confidence = 1/2 := rfl
example : round4 (17/20) = 17/20 := round4_exact _ 8500 (by norm_num)
example : pyInt (19/2) = 9 := by
  rw [pyInt_of_nonneg _ (by norm_num)]
  norm_num [Int.floor_eq_iff]

/-! ### Concrete inputs used by witnesses and counterexamples -/

/-- A safety validation outcome that flags the content. -/
def flaggedSafetyExample : SafetyResult :=
  { is_safe := false, safety_score := 1/2,
    violations := ["violence: Pattern match found"],
    categories_flagged := ["violence"], child_safe := false }

/-- A safety validation outcome that passes all three layers. -/
def cleanSafetyExample : SafetyResult :=
  { is_safe := true, safety_score := 1, violations := [],
    categories_flagged := [], child_safe := true }

/-- Oracle responses where every check parses and flags nothing. -/
def okOracle : PassOracle :=
  { safety := .ok { flagged := false, confidence := 98/100, reasoning := "clean", citation := "" },
    confidential := .ok { flagged := false, confidence := 97/100, reasoning := "clean", citation := "" },
    sensitive := .ok { flagged := false, confidence := 96/100, reasoning := "clean", citation := "" } }

/-- Pass-1 result (CONFIDENTIAL, 0.92) from the spec's consensus example. -/
def passCat92 : SingleResult :=
  { document_id := "doc-dual", final_category := "CONFIDENTIAL",
    confidence_score := 92/100, reasoning_summary := "r1",
    citation_snippet := "c1", validation_pass := 1 }

/-- Pass-2 result (CONFIDENTIAL, 0.93) from the spec's consensus example. -/
def passCat93 : SingleResult :=
  { document_id := "doc-dual", final_category := "CONFIDENTIAL",
    confidence_score := 93/100, reasoning_summary := "r2",
    citation_snippet := "c2", validation_pass := 2 }

/-- Pass-1 result (PUBLIC, 0.95) from the spec's mismatch example. -/
def passA95 : SingleResult :=
  { document_id := "doc-dual2", final_category := "PUBLIC",
    confidence_score := 95/100, reasoning_summary := "r1",
    citation_snippet := "c1", validation_pass := 1 }

/-- Pass-2 result (SENSITIVE, 0.95) from the spec's mismatch example. -/
def passB95 : SingleResult :=
  { document_id := "doc-dual2", final_category := "SENSITIVE",
    confidence_score := 95/100, reasoning_summary := "r2",
    citation_snippet := "c2", validation_pass := 2 }

/-! ### C1 -/

/-- C1: when the SafetyValidator result has `is_safe = false`,
`EnhancedGeminiClassifier.classify` returns `final_category = "UNSAFE"`,
`confidence_score = 1.0` and `hitl_status = "REQUIRES_REVIEW"`; the result is
independent of the dual-pass oracles and of the tracker state feeding the
HITL weighted score, i.e. the dual-pass classification and the HITL scorer
are never consulted. -/
theorem safety_override_blocks_auto_approval (document_id : String)
    (safety : SafetyResult) (pass1 pass2 : PassOracle) (tracker : TrackerState)
    (h : safety.is_safe = false) :
    (enhancedClassify document_id safety pass1 pass2 tracker).final_category = "UNSAFE" ∧
    (enhancedClassify document_id safety pass1 pass2 tracker).confidence_score = 1 ∧
    (enhancedClassify document_id safety pass1 pass2 tracker).hitl_status = "REQUIRES_REVIEW" ∧
    ∀ (pass1' pass2' : PassOracle) (tracker' : TrackerState),
      enhancedClassify document_id safety pass1' pass2' tracker' =
        enhancedClassify document_id safety pass1 pass2 tracker := by
  refine ⟨?_, ?_, ?_, ?_⟩ <;> simp [enhancedClassify, h]

/-- Witness for C1 at a concrete flagged document. -/
theorem safety_override_blocks_auto_approval_witness :
    (enhancedClassify "doc-001" flaggedSafetyExample okOracle okOracle
      initialMetrics).final_category = "UNSAFE" ∧
    (enhancedClassify "doc-001" flaggedSafetyExample okOracle okOracle
      initialMetrics).confidence_score = 1 ∧
    (enhancedClassify "doc-001" flaggedSafetyExample okOracle okOracle
      initialMetrics).hitl_status = "REQUIRES_REVIEW" :=
  ⟨(safety_override_blocks_auto_approval "doc-001" flaggedSafetyExample
      okOracle okOracle initialMetrics rfl).1,
   (safety_override_blocks_auto_approval "doc-001" flaggedSafetyExample
      okOracle okOracle initialMetrics rfl).2.1,
   (safety_override_blocks_auto_approval "doc-001" flaggedSafetyExample
      okOracle okOracle initialMetrics rfl).2.2.1⟩

/-! ### C10 -/

/-- C10: on the blocked (flagged) path the returned dict carries
`validation_consensus = True` although no dual-validation passes ran, and
`child_safe` is copied from the safety result; the result is independent of
the cascading-classifier oracles, i.e. it is built without any call to the
cascading classifier. -/
theorem blocked_path_consensus_flag (document_id : String)
    (safety : SafetyResult) (pass1 pass2 : PassOracle) (tracker : TrackerState)
    (h : safety.is_safe = false) :
    (enhancedClassify document_id safety pass1 pass2 tracker).validation_consensus = some true ∧
    (enhancedClassify document_id safety pass1 pass2 tracker).child_safe = safety.child_safe ∧
    ∀ (pass1' pass2' : PassOracle),
      enhancedClassify document_id safety pass1' pass2' tracker =
        enhancedClassify document_id safety pass1 pass2 tracker := by
  refine ⟨?_, ?_, ?_⟩ <;> simp [enhancedClassify, h]

/-- Witness for C10 at a concrete flagged document. -/
theorem blocked_path_consensus_flag_witness :
    (enhancedClassify "doc-010" flaggedSafetyExample okOracle okOracle
      initialMetrics).validation_consensus = some true ∧
    (enhancedClassify "doc-010" flaggedSafetyExample okOracle okOracle
      initialMetrics).child_safe = false :=
  ⟨(blocked_path_consensus_flag "doc-010" flaggedSafetyExample okOracle
      okOracle initialMetrics rfl).1,
   (blocked_path_consensus_flag "doc-010" flaggedSafetyExample okOracle
      okOracle initialMetrics rfl).2.1⟩

/-! ### C3 -/

/-- C3: when none of the ordered checks flags, a single classification pass
returns exactly the canned PUBLIC result with confidence 0.95; the fallback
consults no further oracle response. -/
theorem no_flag_cascade_defaults_public (document_id : String)
    (oracle : PassOracle) (validation_pass : Nat)
    (h1 : (runCheck oracle.safety).flagged = false)
    (h2 : (runCheck oracle.confidential).flagged = false)
    (h3 : (runCheck oracle.sensitive).flagged = false) :
    classifySingle document_id oracle validation_pass =
      { document_id := document_id, final_category := "PUBLIC",
        confidence_score := 95/100,
        reasoning_summary := "Document contains no unsafe, confidential, or sensitive information. Suitable for public distribution.",
        citation_snippet := "No restricted content found",
        validation_pass := validation_pass } := by
  simp [classifySingle, h1, h2, h3]

/-- Witness for C3 at a concrete non-flagging oracle. -/
theorem no_flag_cascade_defaults_public_witness :
    classifySingle "doc-003" okOracle 1 =
      { document_id := "doc-003", final_category := "PUBLIC",
        confidence_score := 95/100,
        reasoning_summary := "Document contains no unsafe, confidential, or sensitive information. Suitable for public distribution.",
        citation_snippet := "No restricted content found",
        validation_pass := 1 } :=
  no_flag_cascade_defaults_public "doc-003" okOracle 1 rfl rfl rfl

/-! ### C4 -/

/-- C4: a check whose oracle call raises (or whose JSON does not parse)
degrades to a non-flagging result with confidence 0.5; an errored check is
observationally an `ok` fallback, so the cascade continues, and even with
every check erroring the pass still produces the canned PUBLIC result. -/
theorem check_failure_degrades_not_aborts (e : String) :
    (runCheck (Except.error e)).flagged = false ∧
    (runCheck (Except.error e)).confidence = 1/2 ∧
    (∀ (document_id : String) (c s : Except String CheckResult) (p : Nat),
      classifySingle document_id ⟨Except.error e, c, s⟩ p =
        classifySingle document_id ⟨Except.ok (fallbackCheck e), c, s⟩ p) ∧
    (∀ (document_id e2 e3 : String) (p : Nat),
      classifySingle document_id ⟨Except.error e, Except.error e2, Except.error e3⟩ p =
        { document_id := document_id, final_category := "PUBLIC",
          confidence_score := 95/100,
          reasoning_summary := "Document contains no unsafe, confidential, or sensitive information. Suitable for public distribution.",
          citation_snippet := "No restricted content found",
          validation_pass := p }) := by
  refine ⟨rfl, rfl, ?_, ?_⟩ <;> intros <;> simp [classifySingle, runCheck, fallbackCheck]

/-! ### C2 -/

/-- C2: in dual-validation mode consensus holds exactly when the categories
agree and both confidences reach the 0.9 threshold; on consensus the result is
the pass-1 result with AUTO_APPROVED status, consensus flag true and both
confidences recorded, otherwise the pass-1 result with REQUIRES_REVIEW,
consensus flag false and both passes' category and confidence recorded. -/
theorem dual_consensus_rule (result1 result2 : SingleResult) :
    ((classifyFromPasses result1 result2).validation_consensus = some true ↔
      (result1.final_category = result2.final_category ∧
       CONFIDENCE_THRESHOLD ≤ result1.confidence_score ∧
       CONFIDENCE_THRESHOLD ≤ result2.confidence_score)) ∧
    ((result1.final_category = result2.final_category ∧
       CONFIDENCE_THRESHOLD ≤ result1.confidence_score ∧
       CONFIDENCE_THRESHOLD ≤ result2.confidence_score) →
      classifyFromPasses result1 result2 =
        { document_id := result1.document_id,
          final_category := result1.final_category,
          confidence_score := result1.confidence_score,
          reasoning_summary := result1.reasoning_summary,
          citation_snippet := result1.citation_snippet,
          validation_pass := result1.validation_pass,
          hitl_status := "AUTO_APPROVED",
          validation_consensus := some true,
          dual_validation_results :=
            some (.consensus result1.confidence_score result2.confidence_score) }) ∧
    (¬(result1.final_category = result2.final_category ∧
       CONFIDENCE_THRESHOLD ≤ result1.confidence_score ∧
       CONFIDENCE_THRESHOLD ≤ result2.confidence_score) →
      classifyFromPasses result1 result2 =
        { document_id := result1.document_id,
          final_category := result1.final_category,
          confidence_score := result1.confidence_score,
          reasoning_summary := result1.reasoning_summary,
          citation_snippet := result1.citation_snippet,
          validation_pass := result1.validation_pass,
          hitl_status := "REQUIRES_REVIEW",
          validation_consensus := some false,
          dual_validation_results :=
            some (.mismatch result1.final_category result1.confidence_score
              result2.final_category result2.confidence_score) }) := by
  by_cases hc : result1.final_category = result2.final_category ∧
      CONFIDENCE_THRESHOLD ≤ result1.confidence_score ∧
      CONFIDENCE_THRESHOLD ≤ result2.confidence_score <;>
    refine ⟨?_, ?_, ?_⟩ <;> simp [classifyFromPasses, hc]

/-- Witness for C2 at the spec's two concrete examples:
(CONFIDENTIAL 0.92, CONFIDENTIAL 0.93) reaches consensus,
(PUBLIC 0.95, SENSITIVE 0.95) does not. -/
theorem dual_consensus_rule_witness :
    (classifyFromPasses passCat92 passCat93).validation_consensus = some true ∧
    (classifyFromPasses passCat92 passCat93).hitl_status = "AUTO_APPROVED" ∧
    (classifyFromPasses passA95 passB95).validation_consensus = some false ∧
    (classifyFromPasses passA95 passB95).hitl_status = "REQUIRES_REVIEW" := by
  have hc1 : passCat92.final_category = passCat93.final_category ∧
      CONFIDENCE_THRESHOLD ≤ passCat92.confidence_score ∧
      CONFIDENCE_THRESHOLD ≤ passCat93.confidence_score :=
    ⟨rfl, by norm_num [passCat92, CONFIDENCE_THRESHOLD],
      by norm_num [passCat93, CONFIDENCE_THRESHOLD]⟩
  have hc2 : ¬(passA95.final_category = passB95.final_category ∧
      CONFIDENCE_THRESHOLD ≤ passA95.confidence_score ∧
      CONFIDENCE_THRESHOLD ≤ passB95.confidence_score) := by
    intro h
    exact absurd h.1 (by simp [passA95, passB95])
  have h1 := (dual_consensus_rule passCat92 passCat93).2.1 hc1
  have h2 := (dual_consensus_rule passA95 passB95).2.2 hc2
  refine ⟨?_, ?_, ?_, ?_⟩ <;> simp [h1, h2]

/-! ### C6 -/

/-- C6: the HITL auto-approval score is the sum of the four independently
capped factors (confidence tier, consensus, category-precision tier, safety
tier), `auto_approval_probability` returns exactly that total, and the status
is AUTO_APPROVED precisely when the total reaches 0.75, else
REQUIRES_REVIEW. -/
theorem hitl_score_decomposition (s : TrackerState) (confidence : ℚ)
    (category : String) (has_consensus : Bool) (safety_score : ℚ) :
    (enhancedHitlDecision s confidence category has_consensus safety_score).auto_approval_probability =
      (if 95/100 ≤ confidence then 2/5
       else if 9/10 ≤ confidence then 3/10
       else if 85/100 ≤ confidence then 1/5 else 0) +
      (if has_consensus then 3/10 else 0) +
      (if 95/100 ≤ hitlPrecision s category then 1/5
       else if 9/10 ≤ hitlPrecision s category then 3/20 else 0) +
      (if 95/100 ≤ safety_score then 1/10 else 0) ∧
    ((enhancedHitlDecision s confidence category has_consensus safety_score).status =
        "AUTO_APPROVED" ↔
      3/4 ≤ (enhancedHitlDecision s confidence category has_consensus
        safety_score).auto_approval_probability) ∧
    ((enhancedHitlDecision s confidence category has_consensus safety_score).status =
        "REQUIRES_REVIEW" ↔
      ¬ 3/4 ≤ (enhancedHitlDecision s confidence category has_consensus
        safety_score).auto_approval_probability) := by
  unfold enhancedHitlDecision
  dsimp only
  by_cases h : (3:ℚ)/4 ≤ 0 +
      (if 95/100 ≤ confidence then 2/5
       else if 9/10 ≤ confidence then 3/10
       else if 85/100 ≤ confidence then 1/5 else 0) +
      (if has_consensus then 3/10 else 0) +
      (if 95/100 ≤ hitlPrecision s category then 1/5
       else if 9/10 ≤ hitlPrecision s category then 3/20 else 0) +
      (if 95/100 ≤ safety_score then 1/10 else 0)
  · rw [if_pos h]
    exact ⟨by simp only [zero_add], iff_of_true rfl h,
      iff_of_false (by simp) (fun hn => hn h)⟩
  · rw [if_neg h]
    exact ⟨by simp only [zero_add], iff_of_false (by simp) h, iff_of_true rfl h⟩

/-! ### C5 -/

/-- Clamping to the unit interval is the identity inside it. -/
theorem clampUnit_eq (x : ℚ) (h0 : 0 ≤ x) (h1 : x ≤ 1) :
    max 0 (min 1 x) = x := by
  rw [min_eq_right h1, max_eq_right h0]

/-- C5 counterexample: on a fresh tracker (no data recorded, so the category
has no stats entry at all) the calibration read defaults to precision 0.5,
not 0.0; calibrating raw confidence 1.0 without consensus yields 0.85, not
the 0.7 = round4(1.0 * 0.7) the claim requires. -/
theorem calibration_default_counterexample :
    initialMetrics.category_stats "PUBLIC" = none ∧
    calibrateConfidence initialMetrics 1 "PUBLIC" false = 17/20 ∧
    ¬ calibrateConfidence initialMetrics 1 "PUBLIC" false = round4 (1 * (7/10)) := by
  have hprec : calibrationPrecision initialMetrics "PUBLIC" = 1/2 := rfl
  have h85 : round4 ((17:ℚ)/20) = 17/20 := round4_exact _ 8500 (by norm_num)
  have hval : calibrateConfidence initialMetrics 1 "PUBLIC" false = 17/20 := by
    unfold calibrateConfidence
    rw [hprec]
    norm_num [min_def, max_def, h85]
  have h70 : round4 ((1:ℚ) * (7/10)) = 7/10 := by
    rw [show (1 : ℚ) * (7/10) = 7/10 by norm_num]
    exact round4_exact _ 7000 (by norm_num)
  exact ⟨rfl, hval, by rw [hval, h70]; norm_num⟩

/-- C5 (amended): calibration multiplies the raw confidence by
`0.7 + 0.3 * precision` where precision is the value recorded in the
category's stats entry, defaulting to 0.5 — not 0.0 — when the category has
no entry yet; hence with a recorded precision of 0 and no consensus the
result is round4(raw * 0.7), and with no recorded data it is
round4(raw * 0.85). -/
theorem calibration_formula_amended (s : TrackerState) (raw : ℚ)
    (category : String) (h0 : 0 ≤ raw) (h1 : raw ≤ 1) :
    (∀ st, s.category_stats category = some st → st.precision = 0 →
      calibrateConfidence s raw category false = round4 (raw * (7/10))) ∧
    (s.category_stats category = none →
      calibrateConfidence s raw category false = round4 (raw * (17/20))) := by
  constructor
  · intro st hst hp
    have hprec : calibrationPrecision s category = 0 := by
      simp [calibrationPrecision, hst, hp]
    unfold calibrateConfidence
    rw [hprec]
    norm_num
    rw [clampUnit_eq _ (by positivity) (by nlinarith)]
  · intro hst
    have hprec : calibrationPrecision s category = 1/2 := by
      simp [calibrationPrecision, hst]
    unfold calibrateConfidence
    rw [hprec]
    norm_num
    rw [clampUnit_eq _ (by positivity) (by nlinarith)]

/-- Witness for C5's amended statement on a fresh tracker at raw confidence
0.5. -/
theorem calibration_formula_amended_witness :
    calibrateConfidence initialMetrics (1/2) "PUBLIC" false =
      round4 ((1/2) * (17/20)) :=
  (calibration_formula_amended initialMetrics (1/2) "PUBLIC"
    (by norm_num) (by norm_num)).2 rfl

/-! ### C9 -/

/-- Number of submitted files whose processing outcome is an error. -/
def countFailed (files : List (String × Except String FileClassification)) : Nat :=
  (files.filter (fun fo => hasError (processSingleFile fo.1 fo.2))).length

/-- The collection loop of `process_batch`: starting from any job state, it
appends one result per file, bumps `processed_files` once per file and
`failed_files` once per failing file. -/
theorem batchLoop_spec (files : List (String × Except String FileClassification))
    (job : BatchJobState) :
    files.foldl (fun job fo =>
      let result := processSingleFile fo.1 fo.2
      { job with
        results := job.results ++ [result],
        processed_files := job.processed_files + 1,
        failed_files := job.failed_files + (if hasError result then 1 else 0) })
      job =
    { job with
      results := job.results ++ files.map (fun fo => processSingleFile fo.1 fo.2),
      processed_files := job.processed_files + files.length,
      failed_files := job.failed_files + countFailed files } := by
  induction files generalizing job with
  | nil => simp [countFailed]
  | cons fo rest ih =>
    simp only [List.foldl_cons, List.map_cons]
    rw [ih]
    cases h : hasError (processSingleFile fo.1 fo.2) <;>
      simp [countFailed, List.filter_cons, h, List.append_assoc] <;> omega

/-- Closed form of `processBatch`. -/
theorem processBatch_eq (files : List (String × Except String FileClassification)) :
    processBatch files =
      { total_files := files.length, processed_files := files.length,
        failed_files := countFailed files,
        results := files.map (fun fo => processSingleFile fo.1 fo.2),
        status := "COMPLETED" } := by
  have h := batchLoop_spec files
    { total_files := files.length, processed_files := 0, failed_files := 0,
      results := [], status := "PROCESSING" }
  unfold processBatch
  simp only [h]
  simp

/-- A 5-file batch in which exactly the third file raises while processing. -/
def exampleBatch5 : List (String × Except String FileClassification) :=
  [("a.pdf", .ok ⟨"a", "PUBLIC", 95/100, "AUTO_APPROVED"⟩),
   ("b.pdf", .ok ⟨"b", "SENSITIVE", 91/100, "REQUIRES_REVIEW"⟩),
   ("c.pdf", .error "Failed to open file"),
   ("d.pdf", .ok ⟨"d", "PUBLIC", 96/100, "AUTO_APPROVED"⟩),
   ("e.pdf", .ok ⟨"e", "CONFIDENTIAL", 93/100, "AUTO_APPROVED"⟩)]

/-- C9 counterexample: an exception whose message stringifies to the empty
string (e.g. Python's bare `ValueError()`) is caught and recorded as the
file's failed entry, and the file is counted as processed, but
`result.get('error')` is then falsy, so the recorded failure is not counted
in `failed_files` — contradicting the claim that every caught failure is
counted. -/
theorem batch_empty_error_counterexample :
    (processBatch [("f.pdf", Except.error "")]).results =
      [FileResult.failed "f.pdf" ""] ∧
    (processBatch [("f.pdf", Except.error "")]).processed_files = 1 ∧
    (processBatch [("f.pdf", Except.error "")]).status = "COMPLETED" ∧
    ¬ (processBatch [("f.pdf", Except.error "")]).failed_files = 1 := by
  have hemp : ("" : String).isEmpty = true := by decide
  refine ⟨?_, ?_, ?_, ?_⟩ <;>
    simp [processBatch_eq, countFailed, processSingleFile, hasError, hemp]

/-- C9 (amended): a failure while processing one file is caught and recorded
as that file's failed entry, and the job still processes every file and
completes; the failure is counted in `failed_files` exactly when
`result.get('error')` is truthy, i.e. when the exception's message is
non-empty; in particular a 5-file batch whose one failing file raises with a
non-empty message ends with `processed_files = 5`, `failed_files = 1`,
`status = "COMPLETED"`. -/
theorem batch_file_failures_isolated
    (files : List (String × Except String FileClassification)) :
    (processBatch files).status = "COMPLETED" ∧
    (processBatch files).processed_files = files.length ∧
    (processBatch files).failed_files = countFailed files ∧
    (processBatch files).results =
      files.map (fun fo => processSingleFile fo.1 fo.2) ∧
    (processBatch exampleBatch5).processed_files = 5 ∧
    (processBatch exampleBatch5).failed_files = 1 ∧
    (processBatch exampleBatch5).results.getD 2 (.failed "" "") =
      .failed "c.pdf" "Failed to open file" ∧
    (processBatch exampleBatch5).status = "COMPLETED" := by
  have hmsg : ("Failed to open file").isEmpty = false := by decide
  refine ⟨?_, ?_, ?_, ?_, ?_, ?_, ?_, ?_⟩ <;>
    simp [processBatch_eq, exampleBatch5, countFailed, processSingleFile,
      hasError, hmsg]

/-! ### C8 -/

/-- Tracker state after recording one correct PUBLIC prediction with
confidence 0.95. -/
def c8state : TrackerState :=
  recordPrediction initialMetrics "PUBLIC" (some "PUBLIC") (95/100) "doc-8"

/-- Confidence 0.95 falls in the bin labelled 0.9 (`int(9.5)/10`). -/
theorem confidenceBin_95 : confidenceBin (95/100) = 9/10 := by
  unfold confidenceBin
  rw [pyInt_of_nonneg _ (by norm_num)]
  have h : ⌊(95/100 * 10 : ℚ)⌋ = 9 := by norm_num [Int.floor_eq_iff]
  rw [h]
  norm_num

/-- The 0.9 bin of `c8state` holds exactly the one recorded prediction,
marked correct. -/
theorem c8state_bins : c8state.confidence_bins (9/10) =
    [{ predicted := "PUBLIC", ground_truth := some "PUBLIC",
       correct := some true, document_id := "doc-8" }] := by
  have hne : "PUBLIC".isEmpty = false := by decide
  unfold c8state recordPrediction
  simp [truthy, recalculateMetrics, initialMetrics, confidenceBin_95, hne]

/-- C8 counterexample: with one correct prediction at confidence 0.95, the
report's 0.9 bin has actual accuracy 1.0 and calibration error
|0.9 − 1.0| = 0.1, computed against the bin's label 0.9 — its lower edge —
whereas the claim's midpoint of the bin [0.9, 1.0) is 0.95 and would give
error 0.05. -/
theorem calibration_error_bin_label_counterexample :
    confidenceCalibrationEntry c8state (9/10) =
      some { expected := 9/10, actual := 1, samples := 1,
             calibration_error := 1/10 } ∧
    ¬ (1/10 : ℚ) = round4 (absQ ((9/10 + 1/20) - 1)) := by
  have h1 : round4 (1 : ℚ) = 1 := round4_exact _ 10000 (by norm_num)
  have h110 : round4 ((1:ℚ)/10) = 1/10 := round4_exact _ 1000 (by norm_num)
  constructor
  · unfold confidenceCalibrationEntry
    rw [c8state_bins]
    simp only [List.filter, List.length]
    norm_num [absQ, h1, h110]
  · have habs : absQ ((9/10 + 1/20 : ℚ) - 1) = 1/20 := by norm_num [absQ]
    rw [habs, round4_exact _ 500 (by norm_num)]
    norm_num

/-- C8 (amended): for every non-empty bin the report entry's actual accuracy
is the number of correct predictions in the bin divided by the bin's total
(rounded to 4 decimals), and the calibration error is the absolute difference
between the bin's label — the lower edge of [label, label+0.1), not its
midpoint — and that actual accuracy (rounded to 4 decimals). -/
theorem calibration_report_entry_amended (s : TrackerState) (bin : ℚ)
    (h : s.confidence_bins bin ≠ []) :
    confidenceCalibrationEntry s bin = some
      { expected := bin,
        actual := round4 ((((s.confidence_bins bin).filter
            (fun p => p.correct = some true)).length : ℚ) /
          ((s.confidence_bins bin).length : ℚ)),
        samples := (s.confidence_bins bin).length,
        calibration_error := round4 (absQ (bin -
          (((s.confidence_bins bin).filter
            (fun p => p.correct = some true)).length : ℚ) /
          ((s.confidence_bins bin).length : ℚ))) } := by
  unfold confidenceCalibrationEntry
  rw [if_pos (List.length_pos.mpr h)]

/-- Witness for C8's amended statement at the concrete one-prediction
state. -/
theorem calibration_report_entry_amended_witness :
    confidenceCalibrationEntry c8state (9/10) = some
      { expected := 9/10,
        actual := round4 ((((c8state.confidence_bins (9/10)).filter
            (fun p => p.correct = some true)).length : ℚ) /
          ((c8state.confidence_bins (9/10)).length : ℚ)),
        samples := (c8state.confidence_bins (9/10)).length,
        calibration_error := round4 (absQ (9/10 -
          (((c8state.confidence_bins (9/10)).filter
            (fun p => p.correct = some true)).length : ℚ) /
          ((c8state.confidence_bins (9/10)).length : ℚ))) } :=
  calibration_report_entry_amended c8state (9/10) (by rw [c8state_bins]; simp)

/-! ### C7 -/

/-- Writing with `setStat` leaves other keys untouched. -/
theorem setStat_apply_ne (stats : String → Option CategoryStats) (cat : String)
    (v : CategoryStats) (x : String) (h : x ≠ cat) :
    setStat stats cat v x = stats x := by
  simp [setStat, h]

/-- One stats update leaves other categories' entries untouched. -/
theorem updateStatsOne_apply_ne (stats : String → Option CategoryStats)
    (cat p g x : String) (h : x ≠ cat) :
    updateStatsOne stats cat p g x = stats x := by
  unfold updateStatsOne
  split
  · simp [setStat, h]
  · split
    · simp [setStat, h]
    · split
      · simp [setStat, h]
      · rfl

/-- Closed form of one stats update at its own category. -/
theorem updateStatsOne_apply_self (stats : String → Option CategoryStats)
    (cat p g : String) :
    updateStatsOne stats cat p g cat =
      (let st := (stats cat).getD freshStats
       if p = cat ∧ g = cat then
         some { st with true_positives := st.true_positives + 1 }
       else if p = cat ∧ g ≠ cat then
         some { st with false_positives := st.false_positives + 1 }
       else if p ≠ cat ∧ g = cat then
         some { st with false_negatives := st.false_negatives + 1 }
       else stats cat) := by
  unfold updateStatsOne
  split
  · simp [setStat, *]
  · split
    · simp [setStat, *]
    · split
      · simp [setStat, *]
      · simp [*]

/-- One stats update at its own category depends only on that category's
current entry. -/
theorem updateStatsOne_apply_congr (stats stats' : String → Option CategoryStats)
    (cat p g : String) (h : stats cat = stats' cat) :
    updateStatsOne stats cat p g cat = updateStatsOne stats' cat p g cat := by
  rw [updateStatsOne_apply_self, updateStatsOne_apply_self, h]

/-- Recalculation leaves other categories' entries untouched. -/
theorem recalcOne_apply_ne (stats : String → Option CategoryStats)
    (cat x : String) (h : x ≠ cat) :
    recalcOne stats cat x = stats x := by
  unfold recalcOne
  simp [setStat, h]

/-- Closed form of recalculation at its own category. -/
theorem recalcOne_apply_self (stats : String → Option CategoryStats)
    (cat : String) :
    recalcOne stats cat cat =
      (let st := (stats cat).getD freshStats
       some { st with
         precision := round4 (precisionOf st.true_positives st.false_positives),
         recall_metric := round4 (recallOf st.true_positives st.false_negatives),
         f1_score := round4 (f1Of (precisionOf st.true_positives st.false_positives)
           (recallOf st.true_positives st.false_negatives)) }) := by
  unfold recalcOne
  simp [setStat]

/-- Recalculation at its own category depends only on that category's
current entry. -/
theorem recalcOne_apply_congr (stats stats' : String → Option CategoryStats)
    (cat : String) (h : stats cat = stats' cat) :
    recalcOne stats cat cat = recalcOne stats' cat cat := by
  rw [recalcOne_apply_self, recalcOne_apply_self, h]

/-- A per-category fold leaves keys outside the list untouched, provided the
step function only writes its own key. -/
theorem foldl_statsmap_apply_notmem
    (u : (String → Option CategoryStats) → String → String → Option CategoryStats)
    (h1 : ∀ stats cat y, y ≠ cat → u stats cat y = stats y)
    (l : List String) (stats : String → Option CategoryStats) (x : String)
    (hx : x ∉ l) :
    (l.foldl u stats) x = stats x := by
  induction l generalizing stats with
  | nil => rfl
  | cons a t ih =>
    simp only [List.foldl_cons]
    have hxa : x ≠ a := fun he => hx (he ▸ List.mem_cons_self a t)
    have hxt : x ∉ t := fun ht => hx (List.mem_cons_of_mem a ht)
    rw [ih (u stats a) hxt, h1 stats a x hxa]

/-- Evaluating a per-category fold at a key of a duplicate-free list reduces
to the single update of that key, provided the step function only writes its
own key and only reads it. -/
theorem foldl_statsmap_apply_mem
    (u : (String → Option CategoryStats) → String → String → Option CategoryStats)
    (h1 : ∀ stats cat y, y ≠ cat → u stats cat y = stats y)
    (h2 : ∀ stats stats' cat, stats cat = stats' cat → u stats cat cat = u stats' cat cat)
    (l : List String) (stats : String → Option CategoryStats) (x : String)
    (hnd : l.Nodup) (hx : x ∈ l) :
    (l.foldl u stats) x = u stats x x := by
  induction l generalizing stats with
  | nil => cases hx
  | cons a t ih =>
    simp only [List.foldl_cons]
    rcases List.mem_cons.mp hx with he | ht
    · subst he
      exact foldl_statsmap_apply_notmem u h1 t (u stats x) x
        (List.nodup_cons.mp hnd).1
    · have hxa : x ≠ a := fun he => (List.nodup_cons.mp hnd).1 (he ▸ ht)
      rw [ih (u stats a) (List.nodup_cons.mp hnd).2 ht,
        h2 (u stats a) stats x (h1 stats a x hxa)]

/-- The optional ground truth `some g` is truthy exactly when `g` is not the
empty string. -/
theorem truthy_some (g : String) (h : g ≠ "") : truthy (some g) = true := by
  simp only [truthy, Bool.not_eq_true']
  exact Bool.eq_false_iff.mpr (fun he => h ((String.isEmpty_iff g).mp he))

/-- The method `record_prediction` never touches the correction log. -/
theorem recordPrediction_log (s : TrackerState) (p : String)
    (gt : Option String) (conf : ℚ) (d : String) :
    (recordPrediction s p gt conf d).hitl_corrections = s.hitl_corrections := by
  unfold recordPrediction
  split <;> simp [recalculateMetrics]

/-- Evaluating the stats map of `record_prediction` (with truthy ground
truth) at one of the configured categories: only that category's update and
recalculation matter. -/
theorem recordPrediction_stats_apply (s : TrackerState) (p gtv : String)
    (conf : ℚ) (d : String) (x : String) (hx : x ∈ CATEGORIES)
    (htr : truthy (some gtv) = true) :
    (recordPrediction s p (some gtv) conf d).category_stats x =
      recalcOne (updateStatsOne s.category_stats x p gtv) x x := by
  have hnd : CATEGORIES.Nodup := by decide
  unfold recordPrediction
  rw [if_pos htr]
  simp only [recalculateMetrics]
  rw [foldl_statsmap_apply_mem (fun acc cat => recalcOne acc cat)
    (fun stats cat y hy => recalcOne_apply_ne stats cat y hy)
    (fun stats stats' cat h => recalcOne_apply_congr stats stats' cat h)
    CATEGORIES _ x hnd hx]
  exact recalcOne_apply_congr _ _ x
    (foldl_statsmap_apply_mem (fun acc cat => updateStatsOne acc cat p gtv)
      (fun stats cat y hy => updateStatsOne_apply_ne stats cat p gtv y hy)
      (fun stats stats' cat h => updateStatsOne_apply_congr stats stats' cat p gtv h)
      CATEGORIES _ x hnd hx)

/-- One stats update at the ground-truth category itself: a true positive
when the prediction matches, otherwise a false negative. -/
theorem updateStatsOne_gtv_self (stats : String → Option CategoryStats)
    (c p : String) :
    updateStatsOne stats c p c c =
      (let st := (stats c).getD freshStats
       if p = c then some { st with true_positives := st.true_positives + 1 }
       else some { st with false_negatives := st.false_negatives + 1 }) := by
  rw [updateStatsOne_apply_self]
  by_cases hp : p = c <;> simp [hp]

/-- C7 counterexample: correcting a PUBLIC prediction to SENSITIVE on a
fresh tracker leaves SENSITIVE's `true_positives` at 0 (it records a false
negative for SENSITIVE instead), so the corrected category's TP count does
not increase by 1. -/
theorem hitl_correction_tp_counterexample :
    (((recordHitlCorrection initialMetrics "doc-7" "PUBLIC" "SENSITIVE"
        (9/10)).category_stats "SENSITIVE").getD freshStats).true_positives = 0 ∧
    (((recordHitlCorrection initialMetrics "doc-7" "PUBLIC" "SENSITIVE"
        (9/10)).category_stats "SENSITIVE").getD freshStats).false_negatives = 1 ∧
    ¬ (((recordHitlCorrection initialMetrics "doc-7" "PUBLIC" "SENSITIVE"
        (9/10)).category_stats "SENSITIVE").getD freshStats).true_positives =
      ((initialMetrics.category_stats "SENSITIVE").getD freshStats).true_positives + 1 := by
  refine ⟨?_, ?_, ?_⟩ <;> decide

/-- C7 (amended): `record_hitl_correction` is exactly an append to the
correction log followed by `record_prediction(original, corrected,
confidence, document_id)`; consequently the corrected category's
`true_positives` increases by 1 exactly when the original prediction already
equalled the correction (otherwise its `false_negatives` increases by 1
instead), and the next calibration call for that category reads the freshly
recomputed precision rather than the 0.5 default. -/
theorem hitl_correction_semantics (s : TrackerState) (d o c : String)
    (conf : ℚ) (hc : c ∈ CATEGORIES) (hne : c ≠ "") :
    recordHitlCorrection s d o c conf =
      recordPrediction
        { s with hitl_corrections := s.hitl_corrections ++
            [{ document_id := d, original := o, corrected := c, confidence := conf }] }
        o (some c) conf d ∧
    (recordHitlCorrection s d o c conf).hitl_corrections =
      s.hitl_corrections ++
        [{ document_id := d, original := o, corrected := c, confidence := conf }] ∧
    (((recordHitlCorrection s d o c conf).category_stats c).getD
        freshStats).true_positives =
      ((s.category_stats c).getD freshStats).true_positives +
        (if o = c then 1 else 0) ∧
    (((recordHitlCorrection s d o c conf).category_stats c).getD
        freshStats).false_negatives =
      ((s.category_stats c).getD freshStats).false_negatives +
        (if o = c then 0 else 1) ∧
    calibrationPrecision (recordHitlCorrection s d o c conf) c =
      round4 (precisionOf
        (((recordHitlCorrection s d o c conf).category_stats c).getD
          freshStats).true_positives
        (((recordHitlCorrection s d o c conf).category_stats c).getD
          freshStats).false_positives) := by
  have htr := truthy_some c hne
  have hstats : (recordHitlCorrection s d o c conf).category_stats c =
      recalcOne (updateStatsOne s.category_stats c o c) c c := by
    unfold recordHitlCorrection
    exact recordPrediction_stats_apply _ o c conf d c hc htr
  refine ⟨rfl, ?_, ?_, ?_, ?_⟩
  · unfold recordHitlCorrection
    rw [recordPrediction_log]
  · rw [hstats, recalcOne_apply_self, updateStatsOne_gtv_self]
    by_cases ho : o = c <;> simp [ho]
  · rw [hstats, recalcOne_apply_self, updateStatsOne_gtv_self]
    by_cases ho : o = c <;> simp [ho]
  · simp only [calibrationPrecision]
    rw [hstats, recalcOne_apply_self, updateStatsOne_gtv_self]
    by_cases ho : o = c <;> simp [ho]

/-- Witness for C7's amended statement: correcting a SENSITIVE prediction to
SENSITIVE bumps SENSITIVE's TP count by exactly 1. -/
theorem hitl_correction_semantics_witness :
    (((recordHitlCorrection initialMetrics "doc-7b" "SENSITIVE" "SENSITIVE"
        (9/10)).category_stats "SENSITIVE").getD freshStats).true_positives =
      ((initialMetrics.category_stats "SENSITIVE").getD
        freshStats).true_positives + 1 := by
  have h := (hitl_correction_semantics initialMetrics "doc-7b" "SENSITIVE"
    "SENSITIVE" (9/10) (by decide) (by decide)).2.2.1
  simpa using h
